/-
Verification of gdb's C++03 unique_ptr emulation
(gdb/common/gdb_unique_ptr.h) and the safe-bool idiom helper
(gdb/common/safe-bool.h).

Shallow embedding conventions:
  - A raw pointer value is `Option Nat`: `none` is NULL, `some a` is a
    non-null address `a`.  Pointee contents are irrelevant to the claims,
    only address identity matters.
  - `unique_ptr_base` is the class's single data member `m_ptr`.
  - Each member function is a pure Lean function on that state.  Functions
    that may call the deleter additionally return the list of deleter
    invocations they performed, in order; each list element is the argument
    the deleter functor was called with (`call_deleter` invokes `d (m_ptr)`
    unconditionally, so an element may be `none`).
  - Object-level claims (single-owner invariant over whole operation
    sequences) are settled over a system state mapping instance ids to the
    pointer each live instance currently holds, with a step relation whose
    transitions are the public operations of the class.
-/
import Mathlib

namespace Gdb

/-- A raw pointer value: `none` is NULL, `some a` is the non-null address `a`. -/
abbrev Ptr := Option Nat

/-- The state of a `gdb::unique_ptr_base<T, D>` object: its single data
member `T *m_ptr` (gdb_unique_ptr.h line 252). -/
structure unique_ptr_base where
  m_ptr : Ptr
deriving DecidableEq

/-- `unique_ptr_base::unique_ptr_base_ref<T1>`: the auxiliary ref wrapper
holding a raw pointer `T1 *m_ptr` (gdb_unique_ptr.h lines 109-115). -/
structure unique_ptr_base_ref where
  m_ptr : Ptr
deriving DecidableEq

/-- `call_deleter ()`: default-constructs the deleter `D d;` and calls
`d (m_ptr)` (lines 244-250).  The result records that single deleter
invocation together with its argument; note the call happens even when
`m_ptr` is NULL. -/
def call_deleter (u : unique_ptr_base) : List Ptr :=
  [u.m_ptr]

/-- `explicit unique_ptr_base (element_type *p = NULL)`: construction from a
raw pointer, `m_ptr (p)` (line 122). -/
def construct (p : Ptr) : unique_ptr_base :=
  ⟨p⟩

/-- `get ()`: returns the raw pointer being managed, no side effect
(line 180). -/
def get (u : unique_ptr_base) : Ptr :=
  u.m_ptr

/-- `release ()`: `pointer tmp = m_ptr; m_ptr = NULL; return tmp;`
(lines 191-196).  Result: (returned pointer, new object state, deleter
invocations — none). -/
def release (u : unique_ptr_base) : Ptr × unique_ptr_base × List Ptr :=
  (u.m_ptr, ⟨none⟩, [])

/-- `reset (element_type *p = NULL)`: `if (p != m_ptr) { call_deleter ();
m_ptr = p; }` (lines 201-208).  Result: (new object state, deleter
invocations). -/
def reset (u : unique_ptr_base) (p : Ptr) : unique_ptr_base × List Ptr :=
  if p ≠ u.m_ptr then (⟨p⟩, call_deleter u) else (u, [])

/-- The moving "copy" constructor `unique_ptr_base (unique_ptr_base &a) :
m_ptr (a.release ())` (line 133).  Result: (new object, updated source `a`,
deleter invocations). -/
def construct_from (a : unique_ptr_base) : unique_ptr_base × unique_ptr_base × List Ptr :=
  let r := release a
  (⟨r.1⟩, r.2.1, r.2.2)

/-- `operator= (unique_ptr_base &a)`: `reset (a.release ());` (lines
144-149), for the case where `this` and `a` are distinct objects.
Result: (updated `this`, updated `a`, deleter invocations). -/
def assign_from (this a : unique_ptr_base) : unique_ptr_base × unique_ptr_base × List Ptr :=
  let r := release a
  let s := reset this r.1
  (s.1, r.2.1, r.2.2 ++ s.2)

/-- `operator= (unique_ptr_base &a)` in the self-assignment case `a = a`:
`a.release ()` runs first on the one shared object (nulling `m_ptr` and
returning its old value), then `reset` runs on that same, now-null object.
Result: (final object state, deleter invocations). -/
def assign_self (a : unique_ptr_base) : unique_ptr_base × List Ptr :=
  let r := release a
  let s := reset r.2.1 r.1
  (s.1, r.2.2 ++ s.2)

/-- `operator= (const unique_ptr_nullptr_t &)`: `reset ();` (lines
156-161), i.e. assignment from NULL. -/
def assign_null (this : unique_ptr_base) : unique_ptr_base × List Ptr :=
  reset this none

/-- `~unique_ptr_base ()`: `call_deleter ();` (line 166).  Returns the
deleter invocations performed by destruction. -/
def destruct (u : unique_ptr_base) : List Ptr :=
  call_deleter u

/-- `explicit_operator_bool ()`: `return m_ptr != NULL;` (lines 169-172). -/
def explicit_operator_bool (u : unique_ptr_base) : Bool :=
  u.m_ptr != none

/-- `safe_bool<T>::operator bool_type ()` (safe-bool.h lines 41-45):
returns the member-function pointer
`&safe_bool_base::this_type_does_not_support_comparisons` when
`explicit_operator_bool ()` holds and the null pointer constant `0`
otherwise.  A member-function pointer value is modelled as `Option Unit`:
`some ()` is the non-null pointer, `none` is `0`. -/
def safe_bool_operator_bool_type (u : unique_ptr_base) : Option Unit :=
  if explicit_operator_bool u then some () else none

/-- `operator== (const safe_bool<T> &lhs, const safe_bool<U> &rhs)`
(safe-bool.h lines 53-58): calls the protected diagnostic member
`this_type_does_not_support_comparisons` (which does nothing) and
`return false;`. -/
def safe_bool_operator_eq {T U : Type} (lhs : T) (rhs : U) : Bool :=
  false

/-- `operator!= (const safe_bool<T> &lhs, const safe_bool<U> &rhs)`
(safe-bool.h lines 60-65): same shape, `return false;`. -/
def safe_bool_operator_ne {T U : Type} (lhs : T) (rhs : U) : Bool :=
  false

/-- `operator unique_ptr_base_ref<T1> ()` (lines 234-236): returns a ref
wrapper built from `this->release ()`.  Result: (ref value, updated source,
deleter invocations). -/
def to_ref (u : unique_ptr_base) : unique_ptr_base_ref × unique_ptr_base × List Ptr :=
  let r := release u
  (⟨r.1⟩, r.2.1, r.2.2)

/-- `unique_ptr_base (unique_ptr_base_ref<element_type> ref) :
m_ptr (ref.m_ptr)` (lines 220-221). -/
def construct_from_ref (r : unique_ptr_base_ref) : unique_ptr_base :=
  ⟨r.m_ptr⟩

/-- `operator= (unique_ptr_base_ref<element_type> ref)` (lines 223-232):
`if (ref.m_ptr != this->get ()) { call_deleter (); m_ptr = ref.m_ptr; }`.
Result: (updated `this`, deleter invocations). -/
def assign_from_ref (this : unique_ptr_base) (r : unique_ptr_base_ref) :
    unique_ptr_base × List Ptr :=
  if r.m_ptr ≠ get this then (⟨r.m_ptr⟩, call_deleter this) else (this, [])

/-- `operator unique_ptr_base<T1, D1> ()` (lines 238-240): returns
`unique_ptr_base<T1, D1> (this->release ())`.  The destination pointee/
deleter types do not affect the held address, so the result is another
`unique_ptr_base` state.  Result: (new destination object, updated source,
deleter invocations). -/
def convert (u : unique_ptr_base) : unique_ptr_base × unique_ptr_base × List Ptr :=
  let r := release u
  (construct r.1, r.2.1, r.2.2)

/-- Cross-type assignment `b = d` (spec section 8, "Cross-type conversion
scenario"): the source `d` converts to a ref via `operator
unique_ptr_base_ref<T1>` (releasing), then `b.operator= (ref)` runs.
Result: (updated destination `b`, updated source `d`, deleter
invocations). -/
def convert_assign (b d : unique_ptr_base) : unique_ptr_base × unique_ptr_base × List Ptr :=
  let r := to_ref d
  let s := assign_from_ref b r.1
  (s.1, r.2.1, r.2.2 ++ s.2)

/-- `gdb::move (unique_ptr_base<T, D> v)` (lines 319-324): the body just
returns `v`.  The transfer happens because `v` is a by-value parameter,
copy-constructed (= move) from the caller's argument. -/
def move (v : unique_ptr_base) : unique_ptr_base :=
  v

/-- A whole call `u = gdb::move (p)`: the by-value parameter `v` is
copy-constructed from `p` (the moving copy constructor, line 133), then
`move` returns `v`.  Result: (value received by `u`, updated `p`, deleter
invocations). -/
def move_call (p : unique_ptr_base) : unique_ptr_base × unique_ptr_base × List Ptr :=
  let r := construct_from p
  (move r.1, r.2.1, r.2.2)

/- ------------------------------------------------------------------ -/
/- Single-instance operation sequences (for the exactly-once claim).   -/
/- ------------------------------------------------------------------ -/

/-- The public operations applicable to one `unique_ptr_base` instance in
isolation. -/
inductive Op where
  | get_op : Op
  | bool_test : Op
  | release_op : Op
  | assign_null_op : Op
  | reset_op (p : Ptr) : Op
deriving DecidableEq

/-- Run one operation on an instance, yielding the new state and the
deleter invocations it performed. -/
def runOp (u : unique_ptr_base) : Op → unique_ptr_base × List Ptr
  | Op.get_op => (u, [])
  | Op.bool_test => (u, [])
  | Op.release_op => ((release u).2.1, (release u).2.2)
  | Op.assign_null_op => assign_null u
  | Op.reset_op p => reset u p

/-- Run a sequence of operations, concatenating deleter invocations. -/
def runOps (u : unique_ptr_base) : List Op → unique_ptr_base × List Ptr
  | [] => (u, [])
  | op :: ops =>
    let r := runOp u op
    let s := runOps r.1 ops
    (s.1, r.2 ++ s.2)

/-- One full scope of an instance: constructed from `p0`, the operations
`ops` run, then at scope exit the destructor runs.  Returns every deleter
invocation of the whole lifetime, in order. -/
def scopeEvents (p0 : Ptr) (ops : List Op) : List Ptr :=
  let r := runOps (construct p0) ops
  r.2 ++ destruct r.1

/- ------------------------------------------------------------------ -/
/- System-level semantics (for the single-owner invariant).            -/
/- ------------------------------------------------------------------ -/

/-- System-level state: the pointer currently held by each instance slot,
indexed by instance id.  A slot that was never constructed, or whose
instance was destructed, holds `none`. -/
def Sys : Type := Nat → Ptr

/-- Pointwise update of a system state. -/
def upd (s : Sys) (i : Nat) (p : Ptr) : Sys :=
  fun k => if k = i then p else s k

/-- The initial system: no instance holds anything. -/
def emptySys : Sys :=
  fun _ => none

/-- At most one live instance holds any given non-null address. -/
def AtMostOne (s : Sys) : Prop :=
  ∀ a i j, s i = some a → s j = some a → i = j

/-- The caller obligation on raw pointers handed to `construct`: the
address was freshly produced by an allocation and is held by no live
instance (spec section 3, Lifecycle; section 6). -/
def FreshPtr (s : Sys) (p : Ptr) : Prop :=
  ∀ q : Nat, p = some q → ∀ j, s j ≠ some q

/-- One public operation of the class, as a transition on the system
state.  Each constructor mirrors the net effect of the corresponding
member function of gdb_unique_ptr.h on the held pointers of the instances
involved. -/
inductive SysStep : Sys → Sys → Prop where
  /-- `unique_ptr_base (p)` (line 122) on a new instance `i`, with the
  caller handing a fresh raw pointer. -/
  | construct_step (s : Sys) (i : Nat) (p : Ptr) (hi : s i = none)
      (hp : FreshPtr s p) : SysStep s (upd s i p)
  /-- Copy construction of new instance `i` from `j` (line 133):
  `m_ptr (a.release ())` — `i` takes `j`'s pointer, `j` becomes null. -/
  | construct_from_step (s : Sys) (i j : Nat) (hij : i ≠ j) (hi : s i = none) :
      SysStep s (upd (upd s j none) i (s j))
  /-- Assignment `i = j` for distinct instances (lines 144-149):
  `reset (a.release ())` — net effect `i` holds `j`'s old pointer, `j`
  becomes null (the reset guard only suppresses a deleter call, it does
  not change the resulting pointers). -/
  | assign_from_step (s : Sys) (i j : Nat) (hij : i ≠ j) :
      SysStep s (upd (upd s j none) i (s j))
  /-- Self-assignment `i = i` (lines 144-149): release nulls `m_ptr` and
  returns the old value, then `reset` stores it back — net no-op on the
  held pointers. -/
  | assign_self_step (s : Sys) (i : Nat) : SysStep s s
  /-- `i = NULL` (lines 156-161): `reset ()` — `i` becomes null. -/
  | assign_null_step (s : Sys) (i : Nat) : SysStep s (upd s i none)
  /-- `release ()` on `i` (lines 191-196): the raw pointer passes to the
  caller (outside the set of owning instances), `i` becomes null. -/
  | release_step (s : Sys) (i : Nat) : SysStep s (upd s i none)
  /-- `reset (p)` on `i` (lines 201-208) with the caller handing a pointer
  held by no other live instance. -/
  | reset_step (s : Sys) (i : Nat) (p : Ptr)
      (hp : ∀ q : Nat, p = some q → ∀ j, j ≠ i → s j ≠ some q) :
      SysStep s (upd s i p)
  /-- Destruction of `i` (line 166): the deleter runs on whatever `i`
  held; the slot no longer holds anything. -/
  | destruct_step (s : Sys) (i : Nat) : SysStep s (upd s i none)
  /-- Cross-type conversion of `j` into a new instance `i` (lines
  234-240): `unique_ptr_base<T1, D1> (this->release ())`. -/
  | convert_step (s : Sys) (i j : Nat) (hij : i ≠ j) (hi : s i = none) :
      SysStep s (upd (upd s j none) i (s j))

/-- Reflexive-transitive closure of `SysStep`: a finite sequence of public
operations. -/
inductive SysSteps : Sys → Sys → Prop where
  | refl (s : Sys) : SysSteps s s
  | step (s t u : Sys) : SysStep s t → SysSteps t u → SysSteps s u

/- ------------------------------------------------------------------ -/
/- Helper lemmas.                                                      -/
/- ------------------------------------------------------------------ -/

theorem upd_same (s : Sys) (i : Nat) (p : Ptr) : upd s i p i = p := by
  simp [upd]

theorem upd_other (s : Sys) (i : Nat) (p : Ptr) (k : Nat) (h : k ≠ i) :
    upd s i p k = s k := by
  simp [upd, h]

/-- Nulling one slot preserves the at-most-one invariant. -/
theorem atMostOne_upd_none {s : Sys} (h : AtMostOne s) (i : Nat) :
    AtMostOne (upd s i none) := by
  intro a i1 i2 h1 h2
  by_cases e1 : i1 = i
  · rw [e1, upd_same] at h1; exact absurd h1 (by simp)
  · by_cases e2 : i2 = i
    · rw [e2, upd_same] at h2; exact absurd h2 (by simp)
    · rw [upd_other s i none i1 e1] at h1
      rw [upd_other s i none i2 e2] at h2
      exact h a i1 i2 h1 h2

/-- Writing a pointer held by no other slot preserves the invariant. -/
theorem atMostOne_upd_fresh {s : Sys} (h : AtMostOne s) (i : Nat) (p : Ptr)
    (hp : ∀ q : Nat, p = some q → ∀ j, j ≠ i → s j ≠ some q) :
    AtMostOne (upd s i p) := by
  intro a i1 i2 h1 h2
  by_cases e1 : i1 = i
  · by_cases e2 : i2 = i
    · rw [e1, e2]
    · rw [e1, upd_same] at h1
      rw [upd_other s i p i2 e2] at h2
      exact absurd h2 (hp a h1 i2 e2)
  · by_cases e2 : i2 = i
    · rw [e2, upd_same] at h2
      rw [upd_other s i p i1 e1] at h1
      exact absurd h1 (hp a h2 i1 e1)
    · rw [upd_other s i p i1 e1] at h1
      rw [upd_other s i p i2 e2] at h2
      exact h a i1 i2 h1 h2

/-- Transferring `j`'s pointer to `i` while nulling `j` preserves the
invariant. -/
theorem atMostOne_transfer {s : Sys} (h : AtMostOne s) (i j : Nat) (hij : i ≠ j) :
    AtMostOne (upd (upd s j none) i (s j)) := by
  apply atMostOne_upd_fresh (atMostOne_upd_none h j) i (s j)
  intro q hq k hk
  by_cases e : k = j
  · rw [e, upd_same]; simp
  · rw [upd_other s j none k e]
    intro hsk
    exact e (h q k j hsk hq)

/-- One public operation preserves the at-most-one invariant. -/
theorem atMostOne_step {s t : Sys} (h : AtMostOne s) (hs : SysStep s t) :
    AtMostOne t := by
  cases hs with
  | construct_step i p hi hp =>
    exact atMostOne_upd_fresh h i p (fun q hq j _ => hp q hq j)
  | construct_from_step i j hij hi => exact atMostOne_transfer h i j hij
  | assign_from_step i j hij => exact atMostOne_transfer h i j hij
  | assign_self_step i => exact h
  | assign_null_step i => exact atMostOne_upd_none h i
  | release_step i => exact atMostOne_upd_none h i
  | reset_step i p hp => exact atMostOne_upd_fresh h i p hp
  | destruct_step i => exact atMostOne_upd_none h i
  | convert_step i j hij hi => exact atMostOne_transfer h i j hij

/-- The at-most-one invariant is preserved by any operation sequence. -/
theorem atMostOne_steps {s t : Sys} (hs : SysSteps s t) :
    AtMostOne s → AtMostOne t := by
  induction hs with
  | refl s => exact id
  | step s1 t1 u1 h1 _ ih => exact fun h => ih (atMostOne_step h h1)

/-- The empty system satisfies the invariant. -/
theorem atMostOne_empty : AtMostOne emptySys := by
  intro a i j hi
  exact absurd hi (by simp [emptySys])

/- ------------------------------------------------------------------ -/
/- Claim theorems.                                                     -/
/- ------------------------------------------------------------------ -/

/-- C1: for every owning pointer `a` (possibly null), after `b` is
constructed-from or assigned-from `a`, `a.get ()` is null and `b.get ()`
is the value `a.get ()` returned before the operation; the pointer is
moved, never duplicated. -/
theorem c1_transfer_moves_ownership (a b : unique_ptr_base) :
    (get (construct_from a).1 = get a ∧ get (construct_from a).2.1 = none) ∧
    (get (assign_from b a).1 = get a ∧ get (assign_from b a).2.1 = none) := by
  refine ⟨⟨rfl, rfl⟩, ?_, rfl⟩
  by_cases h : a.m_ptr = b.m_ptr
  · simp [assign_from, release, reset, get, h]
  · simp [assign_from, release, reset, get, h]

/-- C4: `reset (x)` on an instance already holding `x` performs no deleter
invocation and leaves the instance unchanged; in particular `reset ()` on
a null-owning instance destroys nothing. -/
theorem c4_reset_same_address_noop (u : unique_ptr_base) :
    reset u (get u) = (u, []) := by
  simp [reset, get]

/-- C5: after `p = obj.release ()`, the instance is null, no deleter
invocation happened, and the returned pointer is the old `obj.get ()`. -/
theorem c5_release_transfers_without_destroying (obj : unique_ptr_base) :
    get (release obj).2.1 = none ∧ (release obj).2.2 = [] ∧
    (release obj).1 = get obj :=
  ⟨rfl, rfl, rfl⟩

/-- C2: for every sequence of the public operations starting from the
empty system, at most one live instance holds a given non-null address at
any instant. -/
theorem c2_single_owner_invariant (s : Sys) (h : SysSteps emptySys s) :
    AtMostOne s :=
  atMostOne_steps h atMostOne_empty

/-- Witness for C2: a concrete sequence — construct instance 0 from fresh
address 5, then copy-construct instance 1 from instance 0 — reaches a
state satisfying the invariant. -/
theorem c2_single_owner_invariant_witness :
    AtMostOne (upd (upd (upd emptySys 0 (some 5)) 0 none) 1
      (upd emptySys 0 (some 5) 0)) :=
  c2_single_owner_invariant _
    (SysSteps.step _ _ _
      (SysStep.construct_step emptySys 0 (some 5) rfl
        (fun q _ j => by simp [emptySys]))
      (SysSteps.step _ _ _
        (SysStep.construct_from_step (upd emptySys 0 (some 5)) 1 0
          (by decide) rfl)
        (SysSteps.refl _)))

/-- Stability lemma: operations that are reads, resets to the already-held
address, and nothing that gives up ownership, leave an instance holding
`some p` unchanged and invoke no deleter. -/
theorem runOps_stable (p : Nat) (ops : List Op)
    (h1 : Op.release_op ∉ ops) (h2 : Op.assign_null_op ∉ ops)
    (h3 : ∀ q, Op.reset_op q ∈ ops → q = some p) :
    runOps ⟨some p⟩ ops = (⟨some p⟩, []) := by
  induction ops with
  | nil => rfl
  | cons op ops ih =>
    have hop : runOp ⟨some p⟩ op = (⟨some p⟩, []) := by
      cases op with
      | get_op => rfl
      | bool_test => rfl
      | release_op => exact absurd (List.mem_cons_self _ _) h1
      | assign_null_op => exact absurd (List.mem_cons_self _ _) h2
      | reset_op q =>
        have hq : q = some p := h3 q (List.mem_cons_self _ _)
        rw [hq]
        simp [runOp, reset]
    have ht := ih (fun hm => h1 (List.mem_cons_of_mem op hm))
      (fun hm => h2 (List.mem_cons_of_mem op hm))
      (fun q hm => h3 q (List.mem_cons_of_mem op hm))
    simp [runOps, hop, ht]

/-- C3 counterexample: destructing a null-owning instance is not free of
deleter invocations — `call_deleter` runs unconditionally (line 166 calls
it, lines 244-250 call `d (m_ptr)` with no null check), so the destruction
policy is invoked once, with the NULL pointer as argument. -/
theorem c3_null_destruct_counterexample :
    destruct (construct none) = [none] :=
  rfl

/-- C3 (amended): the destructor invokes the destruction policy on the
held address when it is non-null; across a scope in which an instance owns
`p` and is never released, the policy is invoked on `p` exactly once, as
the last deleter invocation of the lifetime, at scope exit; destroying a
null-owning instance destroys nothing — the policy is invoked, but with
the null pointer, so no non-null address is ever passed to it. -/
theorem c3_exactly_once_destruction (p : Nat) (ops : List Op)
    (h1 : Op.release_op ∉ ops) (h2 : Op.assign_null_op ∉ ops)
    (h3 : ∀ q, Op.reset_op q ∈ ops → q = some p) :
    (scopeEvents (some p) ops).count (some p) = 1 ∧
    (scopeEvents (some p) ops).getLast? = some (some p) ∧
    ∀ q : Nat, some q ∉ destruct (construct none) := by
  have hs : scopeEvents (some p) ops = [some p] := by
    simp [scopeEvents, construct, runOps_stable p ops h1 h2 h3, destruct,
      call_deleter]
  refine ⟨?_, ?_, ?_⟩
  · rw [hs]; simp
  · rw [hs]; rfl
  · intro q
    simp [destruct, construct, call_deleter]

/-- Witness for C3 (amended), at `p = 5` with a scope performing a read, a
reset to the already-held address, and a boolean test. -/
theorem c3_exactly_once_destruction_witness :
    (scopeEvents (some 5)
        [Op.get_op, Op.reset_op (some 5), Op.bool_test]).count (some 5) = 1 ∧
    (scopeEvents (some 5)
        [Op.get_op, Op.reset_op (some 5), Op.bool_test]).getLast? =
      some (some 5) ∧
    ∀ q : Nat, some q ∉ destruct (construct none) :=
  c3_exactly_once_destruction 5 [Op.get_op, Op.reset_op (some 5), Op.bool_test]
    (by decide) (by decide)
    (by intro q hq; simp at hq; exact hq)

/-- C6: the boolean test is true iff the held address is non-null; a
default-constructed instance tests false, an instance owning a non-null
address tests true, and after `release ()` or `reset ()` the instance
tests false again; the safe-bool conversion yields a non-null value
exactly when the test is true. -/
theorem c6_boolean_test (p : Nat) (u v w : unique_ptr_base) :
    explicit_operator_bool (construct none) = false ∧
    explicit_operator_bool (construct (some p)) = true ∧
    explicit_operator_bool (release u).2.1 = false ∧
    explicit_operator_bool (reset v none).1 = false ∧
    (explicit_operator_bool w = true ↔ get w ≠ none) ∧
    (safe_bool_operator_bool_type w).isSome = explicit_operator_bool w := by
  refine ⟨rfl, rfl, rfl, ?_, ?_, ?_⟩
  · obtain ⟨mv⟩ := v
    cases mv with
    | none => simp [reset, explicit_operator_bool]
    | some x => simp [reset, explicit_operator_bool]
  · simp [explicit_operator_bool, get]
  · cases hw : explicit_operator_bool w with
    | true => simp [safe_bool_operator_bool_type, hw]
    | false => simp [safe_bool_operator_bool_type, hw]

/-- C7: when `other` already refers to the same address as `this`
(including self-assignment `a = a`), assignment leaves the held address
unchanged and the destruction policy is never invoked on that address:
for distinct aliases the reset guard suppresses the deleter entirely, and
for self-assignment the deleter runs only with the NULL pointer left by
the preceding `release`. -/
theorem c7_same_address_assign_noop (a b : unique_ptr_base)
    (h : get b = get a) :
    ((assign_from b a).1 = b ∧ (assign_from b a).2.2 = []) ∧
    ((assign_self a).1 = a ∧ ∀ q : Nat, some q ∉ (assign_self a).2) := by
  obtain ⟨ma⟩ := a
  obtain ⟨mb⟩ := b
  have hb : mb = ma := h
  subst hb
  cases mb with
  | none => simp [assign_from, assign_self, release, reset, call_deleter]
  | some x => simp [assign_from, assign_self, release, reset, call_deleter]

/-- Witness for C7 at `a = b` both holding address 3. -/
theorem c7_same_address_assign_noop_witness :
    ((assign_from (construct (some 3)) (construct (some 3))).1 =
        construct (some 3) ∧
      (assign_from (construct (some 3)) (construct (some 3))).2.2 = []) ∧
    ((assign_self (construct (some 3))).1 = construct (some 3) ∧
      ∀ q : Nat, some q ∉ (assign_self (construct (some 3))).2) :=
  c7_same_address_assign_noop (construct (some 3)) (construct (some 3)) rfl

/-- C8: converting or assigning a derived-pointee instance `d` holding
`X` into a base-pointee instance `b` yields `b.get () = X` and
`d.get () = null`, with no deleter invocation on `X`: the conversion
releases from the source and constructs (or ref-assigns) the destination
from the released pointer. -/
theorem c8_cross_type_conversion (d b : unique_ptr_base) (X : Nat)
    (h : get d = some X) :
    (get (convert d).1 = some X ∧ get (convert d).2.1 = none ∧
      (convert d).2.2 = []) ∧
    (get (convert_assign b d).1 = some X ∧
      get (convert_assign b d).2.1 = none ∧
      some X ∉ (convert_assign b d).2.2) := by
  obtain ⟨md⟩ := d
  obtain ⟨mb⟩ := b
  have hd : md = some X := h
  subst hd
  refine ⟨⟨rfl, rfl, rfl⟩, ?_, rfl, ?_⟩
  · by_cases hbd : some X = mb
    · simp [convert_assign, to_ref, release, assign_from_ref, get, ← hbd]
    · simp [convert_assign, to_ref, release, assign_from_ref, get, hbd]
  · by_cases hbd : some X = mb
    · simp [convert_assign, to_ref, release, assign_from_ref, get, ← hbd]
    · simp [convert_assign, to_ref, release, assign_from_ref, get, hbd,
        call_deleter]

/-- Witness for C8 at `d` holding 5 and `b` holding 7. -/
theorem c8_cross_type_conversion_witness :
    (get (convert (construct (some 5))).1 = some 5 ∧
      get (convert (construct (some 5))).2.1 = none ∧
      (convert (construct (some 5))).2.2 = []) ∧
    (get (convert_assign (construct (some 7)) (construct (some 5))).1 =
        some 5 ∧
      get (convert_assign (construct (some 7)) (construct (some 5))).2.1 =
        none ∧
      some 5 ∉ (convert_assign (construct (some 7)) (construct (some 5))).2.2) :=
  c8_cross_type_conversion (construct (some 5)) (construct (some 7)) 5 rfl

/-- C9: equality and inequality through the restricted-boolean conversion
are rejected: the provided `operator==` and `operator!=` over two
safe_bool values yield false for every pair of operands, regardless of
either operand's truthiness (and their call to the protected diagnostic
member makes uses outside the class ill-formed, the static half of the
disjunction). -/
theorem c9_safe_bool_comparisons_always_false {T U : Type} (lhs : T)
    (rhs : U) :
    safe_bool_operator_eq lhs rhs = false ∧
    safe_bool_operator_ne lhs rhs = false :=
  ⟨rfl, rfl⟩

/-- C10: `u = gdb::move (p)` leaves `p` owning nothing and `u` owning
`p`'s old pointer, with no deleter invocation: `gdb::move` takes its
argument by value, so the moving copy constructor performs the transfer
at the call. -/
theorem c10_move_transfers_ownership (p : unique_ptr_base) :
    get (move_call p).1 = get p ∧ get (move_call p).2.1 = none ∧
    (move_call p).2.2 = [] :=
  ⟨rfl, rfl, rfl⟩

end Gdb
